import Mathlib

/-
Verification of the MCP client bridge (`mcp_client/base.py`).

The module discovers tools from MCP servers over stdio sessions, wraps each
discovered tool schema into a LangChain tool, and executes invocations by
opening a fresh stdio session per call.  The definitions below are a shallow
embedding of that module: pure helpers become Lean functions, the effectful
session code becomes explicit event traces, and Python exceptions become
`Except` values.
-/

set_option autoImplicit false

namespace McpBase

mutual
/-- Parameter-schema shapes a tool can declare (the `inputSchema` of an MCP
tool).  Supported constructs per the spec's Schema Converter contract:
primitive types, objects with required markers, homogeneous arrays; the
`junsupported` constructor stands for any construct outside that set. -/
inductive JSchema where
  | jstr : JSchema
  | jnum : JSchema
  | jbool : JSchema
  | jarr (item : JSchema) : JSchema
  | jobj (props : JProps) (required : List String) : JSchema
  | junsupported (construct : String) : JSchema
inductive JProps where
  | pnil : JProps
  | pcons (name : String) (s : JSchema) (rest : JProps) : JProps
end

mutual
/-- Whether a schema contains a construct outside the supported set. -/
def containsUnsupported : JSchema → Bool
  | JSchema.jstr => false
  | JSchema.jnum => false
  | JSchema.jbool => false
  | JSchema.jarr item => containsUnsupported item
  | JSchema.jobj props _ => propsContainUnsupported props
  | JSchema.junsupported _ => true
def propsContainUnsupported : JProps → Bool
  | JProps.pnil => false
  | JProps.pcons _ s rest => containsUnsupported s || propsContainUnsupported rest
end

/-- Error raised when the schema-to-validator conversion cannot represent a
schema construct. -/
inductive ConversionError where
  | unsupportedConstruct : ConversionError

/-- The runtime validator derived from a schema.  Per the design notes, the
validator is descriptor-driven: the schema shape stored as data. -/
abbrev Validator := JSchema

/-- Modelled from the spec: `jsonschema_to_pydantic` comes from the external
`jsonschema_pydantic` package, whose code is not part of this repository.
Per the spec's Schema Converter contract it produces a validator from a
supported schema and fails closed, raising a conversion error on any schema
containing an unsupported construct rather than producing a permissive
validator. -/
def jsonschema_to_pydantic (s : JSchema) : Except ConversionError Validator :=
  if containsUnsupported s then Except.error ConversionError.unsupportedConstruct
  else Except.ok s

/-- Launch descriptor for one MCP server process (`StdioServerParameters`):
command, arguments, environment (a Python dict embedded as an ordered
association list with distinct keys). -/
structure StdioServerParameters where
  command : String
  args : List String
  env : List (String × String)
  deriving DecidableEq

/-- One discovered operation schema (`types.Tool`): name, description and
input schema. -/
structure ToolSchema where
  name : String
  description : String
  inputSchema : JSchema

/-- The tool adapter built by `create_mcp_tool`: the `McpTool` class fields.
It holds the schema-derived name, description and validator, plus the server
parameters it reconnects through; it holds no live session. -/
structure McpToolModel where
  name : String
  description : String
  args_schema : Validator
  mcp_server_params : StdioServerParameters

/-- Embedding of `create_mcp_tool(tool_schema, server_params)`: convert the
input schema to a validator (this can raise), then build the `McpTool`
instance whose name and description are taken verbatim from the schema. -/
def create_mcp_tool (tool_schema : ToolSchema) (server_params : StdioServerParameters) :
    Except ConversionError McpToolModel :=
  match jsonschema_to_pydantic tool_schema.inputSchema with
  | Except.error e => Except.error e
  | Except.ok input_model =>
      Except.ok { name := tool_schema.name
                  description := tool_schema.description
                  args_schema := input_model
                  mcp_server_params := server_params }

/-- Failures a provider's discovery exchange can raise: process launch,
session handshake, the listing call itself, or schema conversion of one of
the listed tools. -/
inductive DiscoveryError where
  | launchFault : DiscoveryError
  | handshakeFault : DiscoveryError
  | listFault : DiscoveryError
  | conversion (e : ConversionError) : DiscoveryError

/-- Fail-fast traversal of a list, embedding a Python for-loop that appends
one result per element and lets the first raised exception propagate. -/
def exceptMapList {α β ε : Type} (f : α → Except ε β) : List α → Except ε (List β)
  | [] => Except.ok []
  | a :: rest =>
    match f a with
    | Except.error e => Except.error e
    | Except.ok b =>
      match exceptMapList f rest with
      | Except.error e => Except.error e
      | Except.ok bs => Except.ok (b :: bs)

/-- Embedding of `get_mcp_tools(server_param)`.  The discovery session
exchange (open stdio client, open session, initialize, `list_tools`) is
abstracted as the `list_tools` argument: what the provider's listing returns
for given server parameters, or the discovery fault it raises.  Each listed
schema is converted with `create_mcp_tool` in order, fail-fast. -/
def get_mcp_tools
    (list_tools : StdioServerParameters → Except DiscoveryError (List ToolSchema))
    (server_param : StdioServerParameters) : Except DiscoveryError (List McpToolModel) :=
  match list_tools server_param with
  | Except.error e => Except.error e
  | Except.ok tools =>
      exceptMapList
        (fun tool => (create_mcp_tool tool server_param).mapError DiscoveryError.conversion)
        tools

/-- Embedding of `convert_mcp_to_langchain_tools(server_params)`: iterate the
registry in order, extending the accumulated list with each provider's tools;
a provider's discovery failure propagates and aborts the whole loop. -/
def convert_mcp_to_langchain_tools
    (list_tools : StdioServerParameters → Except DiscoveryError (List ToolSchema)) :
    List StdioServerParameters → Except DiscoveryError (List McpToolModel)
  | [] => Except.ok []
  | server_param :: rest =>
    match get_mcp_tools list_tools server_param with
    | Except.error e => Except.error e
    | Except.ok tools =>
      match convert_mcp_to_langchain_tools list_tools rest with
      | Except.error e => Except.error e
      | Except.ok restTools => Except.ok (tools ++ restTools)

/-- The `AgentExecutor` built by `initialise_tools`, restricted to the part
in scope for the bridge: the aggregated tool collection it is handed. -/
structure AgentExecutorModel where
  tools : List McpToolModel

/-- Embedding of `initialise_tools`, restricted to the bridge: config-file
loading, model setup and prompt templating are out of scope per the spec.
It aggregates the tools for the given server parameters and hands them to
the executor; a discovery failure propagates. -/
def initialise_tools
    (list_tools : StdioServerParameters → Except DiscoveryError (List ToolSchema))
    (server_params : List StdioServerParameters) : Except DiscoveryError AgentExecutorModel :=
  match convert_mcp_to_langchain_tools list_tools server_params with
  | Except.error e => Except.error e
  | Except.ok langchain_tools => Except.ok { tools := langchain_tools }

/-- Whether an `Except` result is an error. -/
def isErrorResult {ε α : Type} : Except ε α → Bool
  | Except.error _ => true
  | Except.ok _ => false

/-- One entry of the `mcpServers` section of the server configuration:
`command` is required, `args` and `env` may be absent. -/
structure ServerConfigEntry where
  command : String
  args : Option (List String)
  env : Option (List (String × String))

/-- Failure building `StdioServerParameters` from a config entry: when the
current process environment has no `PATH`, `os.getenv("PATH")` is `None` and
the pydantic model rejects a `None` environment value. -/
inductive ConfigError where
  | missingPathValue : ConfigError

/-- First-match lookup in a dict embedded as an association list. -/
def lookupEnv : List (String × String) → String → Option String
  | [], _ => none
  | kv :: rest, k => if kv.1 = k then some kv.2 else lookupEnv rest k

/-- Dict update `{**d, key: value}`: replace the value in place if the key is
present, otherwise append the new entry. -/
def setEnv : List (String × String) → String → String → List (String × String)
  | [], k, v => [(k, v)]
  | kv :: rest, k, v => if kv.1 = k then (k, v) :: rest else kv :: setEnv rest k v

/-- Body of the environment-resolution loop of `create_server_parameters`:
an entry whose value is empty and whose name is set in the current process
environment is replaced by the process's value; all others are unchanged. -/
def resolveEnvValue (environ : String → Option String) (k v : String) : String :=
  if v.length = 0 then
    match environ k with
    | some w => w
    | none => v
  else v

/-- Embedding of the per-entry body of `create_server_parameters`.  `environ`
is the current process environment (`os.environ` / `os.getenv`).  The server
parameters take the configured command, the configured args defaulting to
empty, and the configured env overridden with the process's `PATH`; then
every env entry with an empty value set in `environ` is resolved from
`environ`.  A missing process `PATH` makes the construction fail. -/
def create_server_parameter (environ : String → Option String)
    (config : ServerConfigEntry) : Except ConfigError StdioServerParameters :=
  match environ "PATH" with
  | none => Except.error ConfigError.missingPathValue
  | some pathValue =>
      Except.ok { command := config.command
                  args := config.args.getD []
                  env := (setEnv (config.env.getD []) "PATH" pathValue).map
                           (fun kv => (kv.1, resolveEnvValue environ kv.1 kv.2)) }

/-- Embedding of `create_server_parameters(server_config)`: one
`StdioServerParameters` per configured server, in configuration order. -/
def create_server_parameters (environ : String → Option String)
    (entries : List ServerConfigEntry) : Except ConfigError (List StdioServerParameters) :=
  exceptMapList (create_server_parameter environ) entries

/-- Observable session events of one `_arun` invocation: entering and exiting
the `stdio_client` context (process spawn and reap) and the `ClientSession`
context. -/
inductive Ev where
  | openStdio : Ev
  | closeStdio : Ev
  | openSession : Ev
  | closeSession : Ev
  deriving DecidableEq, BEq

/-- The provider's `CallToolResult`: reported content plus the `isError`
flag distinguishing remote errors from successes. -/
structure CallToolResult where
  isError : Bool
  content : List String

/-- Environment of one `_arun` call: which of the session steps succeed.
A `false` / `none` marks the step raising a transport-level fault; the
`callToolResult` is what the provider returns when `call_tool` completes. -/
structure ArunEnv where
  stdioOpenOk : Bool
  sessionOpenOk : Bool
  initOk : Bool
  callToolResult : Option CallToolResult

/-- Transport-level faults of one invocation. -/
inductive Fault where
  | launch : Fault
  | handshake : Fault
  | transport : Fault

/-- Outcome of `McpTool._arun`: the returned content, the `ToolException`
raised on a provider-reported error (carrying the reported content), or a
propagated transport fault. -/
inductive ArunOutcome where
  | ok (content : List String) : ArunOutcome
  | toolException (content : List String) : ArunOutcome
  | fault (f : Fault) : ArunOutcome

/-- Semantics of an `async with` block: the scope's close event runs after
the body on every exit path, normal or raising. -/
def withScope (openEv closeEv : Ev) (body : ArunOutcome × List Ev) : ArunOutcome × List Ev :=
  (body.1, openEv :: (body.2 ++ [closeEv]))

/-- Embedding of `McpTool._arun`: enter `stdio_client`, enter
`ClientSession`, initialize the session, call the tool, then raise
`ToolException(result.content)` when the result reports an error and return
`result.content` otherwise.  Each context manager is a scope whose close is
guaranteed on every exit path. -/
def McpTool_arun (env : ArunEnv) : ArunOutcome × List Ev :=
  if env.stdioOpenOk then
    withScope Ev.openStdio Ev.closeStdio
      (if env.sessionOpenOk then
        withScope Ev.openSession Ev.closeSession
          (if env.initOk then
            match env.callToolResult with
            | none => (ArunOutcome.fault Fault.transport, [])
            | some result =>
              if result.isError then (ArunOutcome.toolException result.content, [])
              else (ArunOutcome.ok result.content, [])
          else (ArunOutcome.fault Fault.handshake, []))
      else (ArunOutcome.fault Fault.handshake, []))
  else (ArunOutcome.fault Fault.launch, [])

/-- Outcome of the caller-facing invoke path: `_arun`'s outcomes plus the
validation failure raised before `_arun` runs. -/
inductive InvokeOutcome where
  | ok (content : List String) : InvokeOutcome
  | validationError : InvokeOutcome
  | toolException (content : List String) : InvokeOutcome
  | fault (f : Fault) : InvokeOutcome

/-- Inclusion of `_arun` outcomes into invoke outcomes. -/
def liftOutcome : ArunOutcome → InvokeOutcome
  | ArunOutcome.ok c => InvokeOutcome.ok c
  | ArunOutcome.toolException c => InvokeOutcome.toolException c
  | ArunOutcome.fault f => InvokeOutcome.fault f

/-- Modelled from the spec: the caller-facing invoke path of a tool adapter.
The dispatch that checks raw arguments against `args_schema` before calling
`_arun` lives in the tool framework (LangChain `BaseTool`), outside this
repository; per the spec, a validation failure fails the call immediately
and `_arun` never runs, so no session is opened and no process is spawned. -/
def invoke {A : Type} (validate : A → Bool) (args : A) (env : ArunEnv) :
    InvokeOutcome × List Ev :=
  if validate args then
    let r := McpTool_arun env
    (liftOutcome r.1, r.2)
  else (InvokeOutcome.validationError, [])

/-- A trace leaves no session open: every stdio-client entry and every
client-session entry is matched by a close. -/
def sessionsClosed (t : List Ev) : Bool :=
  (t.count Ev.openStdio == t.count Ev.closeStdio) &&
  (t.count Ev.openSession == t.count Ev.closeSession)

/-- The error `McpTool._run` raises. -/
inductive RunError where
  | notImplemented (msg : String) : RunError

/-- Embedding of `McpTool._run`: the synchronous path raises
`NotImplementedError` unconditionally, for any argument mapping and any
would-be result type. -/
def McpTool_run (A B : Type) (kwargs : A) : Except RunError B :=
  Except.error (RunError.notImplemented "Only async operations are supported")

/-- Fixture: a validator that rejects every argument mapping. -/
def rejectAll : Nat → Bool := fun _ => false

/-- Fixture: an invocation environment in which every session step succeeds
and the provider reports a successful call. -/
def envAllOk : ArunEnv :=
  { stdioOpenOk := true, sessionOpenOk := true, initOk := true
    callToolResult := some { isError := false, content := ["hi"] } }

/-- Fixture: an invocation environment in which the provider reports a
remote error. -/
def envCallError : ArunEnv :=
  { stdioOpenOk := true, sessionOpenOk := true, initOk := true
    callToolResult := some { isError := true, content := ["boom"] } }

/-- Fixture: server parameters of a first provider. -/
def serverA : StdioServerParameters := { command := "server-a", args := [], env := [] }

/-- Fixture: server parameters of a second provider. -/
def serverB : StdioServerParameters := { command := "server-b", args := [], env := [] }

/-- Fixture: one discovered operation schema. -/
def schemaEcho : ToolSchema :=
  { name := "echo", description := "echo a string", inputSchema := JSchema.jstr }

/-- Fixture: the adapter built from `schemaEcho` against `serverA`. -/
def toolEchoA : McpToolModel :=
  { name := "echo", description := "echo a string", args_schema := JSchema.jstr
    mcp_server_params := serverA }

/-- Fixture: a provider listing exactly `schemaEcho`. -/
def listToolsEcho : StdioServerParameters → Except DiscoveryError (List ToolSchema) :=
  fun _ => Except.ok [schemaEcho]

/-- Fixture: a discovery environment in which every provider declares one
operation named dup, so two providers collide on the name. -/
def listToolsDup : StdioServerParameters → Except DiscoveryError (List ToolSchema) :=
  fun p => Except.ok [{ name := "dup", description := p.command, inputSchema := JSchema.jnum }]

/-- Fixture: the colliding adapter discovered from `serverA`. -/
def toolDupA : McpToolModel :=
  { name := "dup", description := "server-a", args_schema := JSchema.jnum
    mcp_server_params := serverA }

/-- Fixture: the colliding adapter discovered from `serverB`. -/
def toolDupB : McpToolModel :=
  { name := "dup", description := "server-b", args_schema := JSchema.jnum
    mcp_server_params := serverB }

/-- Fixture: a discovery environment in which `serverB` fails to launch and
every other provider lists nothing. -/
def listToolsFail : StdioServerParameters → Except DiscoveryError (List ToolSchema) :=
  fun p =>
    if p.command = "server-b" then Except.error DiscoveryError.launchFault
    else Except.ok []

/-- Fixture: a process environment with a `PATH` and a `HOME` but nothing
else. -/
def environ1 : String → Option String :=
  fun k => if k = "PATH" then some "/usr/bin" else if k = "HOME" then some "/root" else none

/-- Fixture: a config entry with no `args`, an empty-valued `HOME` entry and
a configured `PATH` to be overridden. -/
def configEntry1 : ServerConfigEntry :=
  { command := "srv", args := none
    env := some [("HOME", ""), ("APIKEY", "abc"), ("PATH", "/custom")] }

/-- Fixture: the server parameters built from `configEntry1` under
`environ1`. -/
def serverParams1 : StdioServerParameters :=
  { command := "srv", args := []
    env := [("HOME", "/root"), ("APIKEY", "abc"), ("PATH", "/usr/bin")] }

/-- Fixture: a config entry with an empty-valued entry whose name is not in
the process environment. -/
def configEntry2 : ServerConfigEntry :=
  { command := "srv2", args := none, env := some [("APIKEY", "")] }

/-- Fixture: the server parameters built from `configEntry2` under
`environ1`: the unresolvable empty value survives unchanged. -/
def serverParams2 : StdioServerParameters :=
  { command := "srv2", args := [], env := [("APIKEY", ""), ("PATH", "/usr/bin")] }

/-- Fixture: a schema containing an unsupported construct nested inside an
object. -/
def schemaBad : ToolSchema :=
  { name := "bad", description := "has an unsupported construct"
    inputSchema := JSchema.jobj (JProps.pcons "q" (JSchema.junsupported "oneOf") JProps.pnil) [] }

/-- A successful fail-fast traversal relates input and output pointwise. -/
theorem exceptMapList_ok_forall2 {α β ε : Type} (f : α → Except ε β) :
    ∀ (l : List α) (out : List β), exceptMapList f l = Except.ok out →
      List.Forall₂ (fun a b => f a = Except.ok b) l out := by
  intro l
  induction l with
  | nil =>
    intro out h
    simp only [exceptMapList, Except.ok.injEq] at h
    subst h
    exact List.Forall₂.nil
  | cons a rest ih =>
    intro out h
    simp only [exceptMapList] at h
    cases hf : f a with
    | error e => rw [hf] at h; cases h
    | ok b =>
      rw [hf] at h
      cases hr : exceptMapList f rest with
      | error e => rw [hr] at h; cases h
      | ok bs =>
        rw [hr] at h
        injection h with h
        subst h
        exact List.Forall₂.cons hf (ih bs hr)

/-- Lookup commutes with a value-transforming map over an association
list. -/
theorem lookupEnv_map_value (g : String → String → String) :
    ∀ (l : List (String × String)) (k : String),
      lookupEnv (l.map (fun kv => (kv.1, g kv.1 kv.2))) k = (lookupEnv l k).map (g k) := by
  intro l
  induction l with
  | nil => intro k; rfl
  | cons kv rest ih =>
    intro k
    by_cases hk : kv.1 = k
    · simp [lookupEnv, hk]
    · simp [lookupEnv, hk, ih]

/-- After a dict update, looking up the updated key finds the new value. -/
theorem lookupEnv_setEnv_self :
    ∀ (l : List (String × String)) (k v : String), lookupEnv (setEnv l k v) k = some v := by
  intro l
  induction l with
  | nil => intro k v; simp [setEnv, lookupEnv]
  | cons kv rest ih =>
    intro k v
    by_cases hk : kv.1 = k
    · simp [setEnv, hk, lookupEnv]
    · simp [setEnv, hk, lookupEnv, ih]

/-- A dict update leaves lookups of other keys unchanged. -/
theorem lookupEnv_setEnv_ne :
    ∀ (l : List (String × String)) (k v k' : String), k' ≠ k →
      lookupEnv (setEnv l k v) k' = lookupEnv l k' := by
  intro l
  induction l with
  | nil =>
    intro k v k' hne
    simp [setEnv, lookupEnv, Ne.symm hne]
  | cons kv rest ih =>
    intro k v k' hne
    by_cases hk : kv.1 = k
    · have hk' : ¬kv.1 = k' := by rw [hk]; exact Ne.symm hne
      simp [setEnv, hk, lookupEnv, hk', Ne.symm hne]
    · by_cases hk' : kv.1 = k'
      · simp [setEnv, hk, lookupEnv, hk', hne]
      · simp [setEnv, hk, lookupEnv, hk', hne, ih k v k' hne]

/-- A successfully built adapter takes its name and description verbatim
from the schema it was built from. -/
theorem create_mcp_tool_ok_fields (tool : ToolSchema) (p : StdioServerParameters)
    (t : McpToolModel)
    (h : (create_mcp_tool tool p).mapError DiscoveryError.conversion = Except.ok t) :
    t.name = tool.name ∧ t.description = tool.description := by
  unfold create_mcp_tool at h
  cases hj : jsonschema_to_pydantic tool.inputSchema with
  | error e => rw [hj] at h; cases h
  | ok v =>
    rw [hj] at h
    simp only [Except.mapError] at h
    injection h with h
    subst h
    exact ⟨rfl, rfl⟩

/-- Every trace `McpTool._arun` can produce has its stdio channel and its
client session closed by the end. -/
theorem sessionsClosed_arun (env : ArunEnv) :
    sessionsClosed (McpTool_arun env).2 = true := by
  obtain ⟨so, se, io, cr⟩ := env
  cases so <;> cases se <;> cases io <;>
    rcases cr with _ | ⟨ierr, c⟩ <;>
    first
      | rfl
      | (cases ierr <;> rfl)

/-- Claim C1: for every invocation of a tool adapter's invoke
(`McpTool._arun`), on every exit path — success, provider-reported error, or
transport fault raised inside the call — the session (the stdio client
channel and its `ClientSession`) is torn down before invoke returns; no exit
path leaves the session open. -/
theorem invoke_closes_every_session {A : Type} (validate : A → Bool) (args : A)
    (env : ArunEnv) : sessionsClosed (invoke validate args env).2 = true := by
  cases hv : validate args with
  | true =>
    simpa [invoke, hv] using sessionsClosed_arun env
  | false =>
    simp [invoke, hv, sessionsClosed]

/-- Claim C2: for every invoke call whose raw arguments fail the tool's
argument validation, invoke fails with a validation error, and no session is
opened and no provider process is spawned. -/
theorem invoke_validation_failure_opens_nothing {A : Type} (validate : A → Bool)
    (args : A) (env : ArunEnv) (h : validate args = false) :
    invoke validate args env = (InvokeOutcome.validationError, []) ∧
    (invoke validate args env).2.count Ev.openStdio = 0 ∧
    (invoke validate args env).2.count Ev.openSession = 0 := by
  refine ⟨?_, ?_, ?_⟩ <;> simp [invoke, h]

/-- Witness for claim C2 at a concrete rejecting validator. -/
theorem invoke_validation_failure_opens_nothing_witness :
    invoke rejectAll 0 envAllOk = (InvokeOutcome.validationError, []) ∧
    (invoke rejectAll 0 envAllOk).2.count Ev.openStdio = 0 ∧
    (invoke rejectAll 0 envAllOk).2.count Ev.openSession = 0 :=
  invoke_validation_failure_opens_nothing rejectAll 0 envAllOk rfl

/-- Claim C3: for every completed call exchange in `McpTool._arun`, the call
raises `ToolException` carrying exactly the provider's reported content if
and only if the result has `isError` set, and otherwise returns exactly the
result's content. -/
theorem arun_dispatches_on_isError (env : ArunEnv) (result : CallToolResult)
    (h1 : env.stdioOpenOk = true) (h2 : env.sessionOpenOk = true)
    (h3 : env.initOk = true) (h4 : env.callToolResult = some result) :
    ((McpTool_arun env).1 = ArunOutcome.toolException result.content ↔
      result.isError = true) ∧
    (result.isError = false → (McpTool_arun env).1 = ArunOutcome.ok result.content) := by
  cases hr : result.isError <;>
    simp [McpTool_arun, withScope, h1, h2, h3, h4, hr]

/-- Witness for claim C3 at a concrete provider-reported error. -/
theorem arun_dispatches_on_isError_witness :
    ((McpTool_arun envCallError).1 = ArunOutcome.toolException ["boom"] ↔ true = true) ∧
    (true = false → (McpTool_arun envCallError).1 = ArunOutcome.ok ["boom"]) :=
  arun_dispatches_on_isError envCallError { isError := true, content := ["boom"] }
    rfl rfl rfl rfl

/-- Claim C4: whenever a provider's listing returns a sequence of operation
schemas and discovery succeeds, `get_mcp_tools` returns exactly one adapter
per returned schema, in the same order, each taking its name and description
verbatim from its schema. -/
theorem get_mcp_tools_adapters_match_schemas
    (list_tools : StdioServerParameters → Except DiscoveryError (List ToolSchema))
    (server_param : StdioServerParameters) (schemas : List ToolSchema)
    (tools : List McpToolModel)
    (hlist : list_tools server_param = Except.ok schemas)
    (hok : get_mcp_tools list_tools server_param = Except.ok tools) :
    tools.length = schemas.length ∧
    List.Forall₂ (fun (s : ToolSchema) (t : McpToolModel) =>
      t.name = s.name ∧ t.description = s.description) schemas tools := by
  unfold get_mcp_tools at hok
  rw [hlist] at hok
  have hf := exceptMapList_ok_forall2 _ schemas tools hok
  have hf2 := hf.imp (fun {s t} h => create_mcp_tool_ok_fields s server_param t h)
  exact ⟨hf2.length_eq.symm, hf2⟩

/-- Witness for claim C4 at a concrete one-schema provider. -/
theorem get_mcp_tools_adapters_match_schemas_witness :
    ([toolEchoA].length = [schemaEcho].length) ∧
    List.Forall₂ (fun (s : ToolSchema) (t : McpToolModel) =>
      t.name = s.name ∧ t.description = s.description) [schemaEcho] [toolEchoA] :=
  get_mcp_tools_adapters_match_schemas listToolsEcho serverA [schemaEcho] [toolEchoA]
    rfl rfl

/-- Claim C5: when every provider's discovery succeeds, the aggregated
collection returned by `convert_mcp_to_langchain_tools` is the concatenation
of the providers' adapter lists in registry order, and name collisions are
all retained, neither deduplicated nor renamed: the aggregate keeps one
entry per discovered adapter. -/
theorem convert_concatenates_in_registry_order
    (list_tools : StdioServerParameters → Except DiscoveryError (List ToolSchema))
    (params : List StdioServerParameters) (lss : List (List McpToolModel))
    (h : exceptMapList (get_mcp_tools list_tools) params = Except.ok lss) :
    convert_mcp_to_langchain_tools list_tools params = Except.ok lss.flatten ∧
    lss.flatten.length = (lss.map List.length).sum := by
  refine ⟨?_, List.length_flatten lss⟩
  induction params generalizing lss with
  | nil =>
    simp only [exceptMapList, Except.ok.injEq] at h
    subst h
    rfl
  | cons p rest ih =>
    simp only [exceptMapList] at h
    cases hp : get_mcp_tools list_tools p with
    | error e => rw [hp] at h; cases h
    | ok ts =>
      rw [hp] at h
      cases hr : exceptMapList (get_mcp_tools list_tools) rest with
      | error e => rw [hr] at h; cases h
      | ok rs =>
        rw [hr] at h
        injection h with h
        subst h
        simp [convert_mcp_to_langchain_tools, hp, ih rs hr]

/-- Witness for claim C5 at two providers whose operations collide on the
name dup: both colliding adapters are retained as distinct entries. -/
theorem convert_concatenates_in_registry_order_witness :
    convert_mcp_to_langchain_tools listToolsDup [serverA, serverB] =
      Except.ok ([[toolDupA], [toolDupB]] : List (List McpToolModel)).flatten ∧
    ([[toolDupA], [toolDupB]] : List (List McpToolModel)).flatten.length =
      (([[toolDupA], [toolDupB]] : List (List McpToolModel)).map List.length).sum :=
  convert_concatenates_in_registry_order listToolsDup [serverA, serverB]
    [[toolDupA], [toolDupB]] rfl

/-- Claim C6: for every server configuration entry (assuming the current
process environment carries a `PATH`), the built launch descriptor defaults
a missing `args` to the empty list, resolves every empty-valued environment
entry whose name is set in the process environment from the process
environment, and carries the process environment's `PATH`, overriding any
configured `PATH` value. -/
theorem create_server_parameter_env_rules
    (environ : String → Option String) (config : ServerConfigEntry)
    (pathVal : String) (sp : StdioServerParameters)
    (hp : environ "PATH" = some pathVal)
    (hok : create_server_parameter environ config = Except.ok sp) :
    (config.args = none → sp.args = []) ∧
    lookupEnv sp.env "PATH" = some pathVal ∧
    (∀ k w, k ≠ "PATH" → lookupEnv (config.env.getD []) k = some "" →
      environ k = some w → lookupEnv sp.env k = some w) := by
  unfold create_server_parameter at hok
  rw [hp] at hok
  injection hok with hok
  subst hok
  refine ⟨?_, ?_, ?_⟩
  · intro ha; simp [ha]
  · rw [lookupEnv_map_value, lookupEnv_setEnv_self]
    simp [resolveEnvValue, hp]
  · intro k w hk hv hw
    rw [lookupEnv_map_value, lookupEnv_setEnv_ne _ _ _ _ hk, hv]
    simp [resolveEnvValue, hw]

/-- Witness for claim C6 at a concrete config entry with a missing `args`
key, an empty-valued resolvable entry and a configured `PATH`. -/
theorem create_server_parameter_env_rules_witness :
    (configEntry1.args = none → serverParams1.args = []) ∧
    lookupEnv serverParams1.env "PATH" = some "/usr/bin" ∧
    lookupEnv serverParams1.env "HOME" = some "/root" := by
  have h := create_server_parameter_env_rules environ1 configEntry1 "/usr/bin"
    serverParams1 rfl rfl
  exact ⟨h.1, h.2.1, h.2.2 "HOME" "/root" (by decide) rfl rfl⟩

/-- Claim C7: if any one provider in the registry fails discovery, the whole
aggregation — `convert_mcp_to_langchain_tools`, and hence
`initialise_tools` — fails; no partial adapter collection is returned. -/
theorem aggregation_fails_if_any_provider_fails
    (list_tools : StdioServerParameters → Except DiscoveryError (List ToolSchema))
    (params : List StdioServerParameters) (p : StdioServerParameters)
    (e : DiscoveryError)
    (hmem : p ∈ params) (hfail : get_mcp_tools list_tools p = Except.error e) :
    isErrorResult (convert_mcp_to_langchain_tools list_tools params) = true ∧
    isErrorResult (initialise_tools list_tools params) = true := by
  have hconv : ∀ (ps : List StdioServerParameters), p ∈ ps →
      isErrorResult (convert_mcp_to_langchain_tools list_tools ps) = true := by
    intro ps
    induction ps with
    | nil => intro hm; cases hm
    | cons q rest ih =>
      intro hm
      cases hq : get_mcp_tools list_tools q with
      | error e2 => simp [convert_mcp_to_langchain_tools, hq, isErrorResult]
      | ok ts =>
        rcases List.mem_cons.mp hm with rfl | hm2
        · rw [hq] at hfail; cases hfail
        · have hrest := ih hm2
          cases hr : convert_mcp_to_langchain_tools list_tools rest with
          | error e3 => simp [convert_mcp_to_langchain_tools, hq, hr, isErrorResult]
          | ok rs => rw [hr] at hrest; simp [isErrorResult] at hrest
  refine ⟨hconv params hmem, ?_⟩
  have hc := hconv params hmem
  cases hcv : convert_mcp_to_langchain_tools list_tools params with
  | error e2 => simp [initialise_tools, hcv, isErrorResult]
  | ok rs => rw [hcv] at hc; simp [isErrorResult] at hc

/-- Witness for claim C7 at a registry whose second provider fails to
launch while the first succeeds. -/
theorem aggregation_fails_if_any_provider_fails_witness :
    isErrorResult (convert_mcp_to_langchain_tools listToolsFail [serverA, serverB]) = true ∧
    isErrorResult (initialise_tools listToolsFail [serverA, serverB]) = true :=
  aggregation_fails_if_any_provider_fails listToolsFail [serverA, serverB] serverB
    DiscoveryError.launchFault (by simp) rfl

/-- Claim C8: for every operation schema containing a construct the
converter does not support, the schema-to-validator conversion inside
`create_mcp_tool` raises a conversion error, so building the adapter
fails closed. -/
theorem converter_fails_closed (s : JSchema) (tool_schema : ToolSchema)
    (server_params : StdioServerParameters)
    (hs : tool_schema.inputSchema = s)
    (h : containsUnsupported s = true) :
    jsonschema_to_pydantic s = Except.error ConversionError.unsupportedConstruct ∧
    create_mcp_tool tool_schema server_params =
      Except.error ConversionError.unsupportedConstruct := by
  have h1 : jsonschema_to_pydantic s = Except.error ConversionError.unsupportedConstruct := by
    simp [jsonschema_to_pydantic, h]
  refine ⟨h1, ?_⟩
  unfold create_mcp_tool
  rw [hs, h1]

/-- Witness for claim C8 at a schema with an unsupported construct nested
inside an object. -/
theorem converter_fails_closed_witness :
    jsonschema_to_pydantic schemaBad.inputSchema =
      Except.error ConversionError.unsupportedConstruct ∧
    create_mcp_tool schemaBad serverA =
      Except.error ConversionError.unsupportedConstruct :=
  converter_fails_closed schemaBad.inputSchema schemaBad serverA rfl rfl

/-- Claim C9: for every argument mapping and every would-be result type, the
synchronous execution path `McpTool._run` raises `NotImplementedError`
unconditionally. -/
theorem run_raises_not_implemented (A B : Type) (kwargs : A) :
    McpTool_run A B kwargs =
      Except.error (RunError.notImplemented "Only async operations are supported") := rfl

/-- Claim C10: an environment entry whose value is the empty string and
whose name is not present in the current process environment is left in the
built descriptor unchanged, with its empty value: neither removed, nor
replaced, nor an error. -/
theorem unresolvable_empty_env_value_kept
    (environ : String → Option String) (config : ServerConfigEntry)
    (pathVal : String) (sp : StdioServerParameters) (k : String)
    (hp : environ "PATH" = some pathVal)
    (hok : create_server_parameter environ config = Except.ok sp)
    (hk : k ≠ "PATH")
    (hv : lookupEnv (config.env.getD []) k = some "")
    (hw : environ k = none) :
    lookupEnv sp.env k = some "" := by
  unfold create_server_parameter at hok
  rw [hp] at hok
  injection hok with hok
  subst hok
  rw [lookupEnv_map_value, lookupEnv_setEnv_ne _ _ _ _ hk, hv]
  simp [resolveEnvValue, hw]

/-- Witness for claim C10 at a concrete entry whose empty value has no
counterpart in the process environment. -/
theorem unresolvable_empty_env_value_kept_witness :
    lookupEnv serverParams2.env "APIKEY" = some "" :=
  unresolvable_empty_env_value_kept environ1 configEntry2 "/usr/bin" serverParams2
    "APIKEY" rfl rfl (by decide) rfl rfl

end McpBase
